import Mathlib

/-!
Shallow embedding of reconcile.py, an OpenRefine reconciliation service for
the id.loc.gov suggest2 API, together with proofs about the claims of its
specification.  Pure fragments of the Python source are translated into
executable Lean definitions; Python exceptions are modelled with `Except`,
and the upstream HTTP collaborator and the repository's text-normalization
module (absent from the sources) are explicit function parameters.
-/

namespace Reconcile

/-- Python exceptions that the embedded fragments of reconcile.py can raise:
`IndexError` from subscripting an empty list, `KeyError` from a missing
dictionary key, `TypeError` from concatenating `None` to a `str`,
`getopt.GetoptError` (the only class the `except` clause at line 280 catches),
a `requests` connection failure, and a JSON decoding failure. -/
inductive PyError where
  | indexError
  | keyError (key : String)
  | typeError
  | getoptError
  | requestError
  | jsonDecodeError
deriving DecidableEq

/-- One element of the upstream `hits` array; `n.get('aLabel')` and
`n.get('uri')` (reconcile.py lines 285-286) return Python `None` when the
field is absent, modelled by `Option`. -/
structure Hit where
  aLabel : Option String
  uri : Option String
deriving DecidableEq

/-- Outcome of the upstream call `requests.get(url)` followed by
`resp.json()` and the subscript `results['hits']` (lines 277-279): the call
can fail on the network, return a body that is not JSON, or return a JSON
object whose `hits` member may be absent. -/
inductive UpstreamOutcome where
  | netError
  | notJson
  | json (hits : Option (List Hit))
deriving DecidableEq

/-- One dictionary of the `refine_to_lc` table (lines 45-193).  The twenty-one
registered entries carry `member` and `type` keys; `default_query`
(lines 39-43) lacks both, so a subscript such as `entry['member']` raises
`KeyError` on it, which is modelled by `Option`. -/
structure VocabEntry where
  id : String
  name : String
  index : String
  member : Option String
  type : Option String
deriving DecidableEq

/-- The `default_query` dictionary (lines 39-43): only `id`, `name` and
`index` keys. -/
def default_query : VocabEntry :=
  { id := "LoC", name := "LCNAF & LCSH", index := "/authorities",
    member := none, type := none }

/-- The `refine_to_lc` table (lines 45-193) with `default_query` appended at
line 194. -/
def refine_to_lc : List VocabEntry :=
  [ { id := "Names--All",
      name := "Library of Congress Name Authority File",
      index := "/authorities/names",
      member := some "http://id.loc.gov/authorities/names/collection_NamesAuthorizedHeadings",
      type := some "" },
    { id := "Names--Personal",
      name := "Library of Congress Name Authority File--Personal names only",
      index := "/authorities/names",
      member := some "http://id.loc.gov/authorities/names/collection_NamesAuthorizedHeadings",
      type := some "PersonalName" },
    { id := "Names--Corporate",
      name := "Library of Congress Name Authority File--Corporate names only",
      index := "/authorities/names",
      member := some "http://id.loc.gov/authorities/names/collection_NamesAuthorizedHeadings",
      type := some "CorporateName" },
    { id := "Names--Conference",
      name := "Library of Congress Name Authority File--Conference names only",
      index := "/authorities/names",
      member := some "http://id.loc.gov/authorities/names/collection_NamesAuthorizedHeadings",
      type := some "ConferenceName" },
    { id := "Names--Geographic",
      name := "Library of Congress Name Authority File--Geographic names only",
      index := "/authorities/names",
      member := some "http://id.loc.gov/authorities/names/collection_NamesAuthorizedHeadings",
      type := some "Geographic" },
    { id := "Names--Titles",
      name := "Library of Congress Name Authority File--Titles only",
      index := "/authorities/names",
      member := some "http://id.loc.gov/authorities/names/collection_NamesAuthorizedHeadings",
      type := some "Title" },
    { id := "Names--Name-Titles",
      name := "Library of Congress Name Authority File--Name-Titles only",
      index := "/authorities/names",
      member := some "http://id.loc.gov/authorities/names/collection_NamesAuthorizedHeadings",
      type := some "NameTitle" },
    { id := "Subjects--All",
      name := "Library of Congress Subject Headings",
      index := "/authorities/subjects",
      member := some "http://id.loc.gov/authorities/subjects/collection_LCSHAuthorizedHeadings",
      type := some "" },
    { id := "Subjects--Topics",
      name := "Library of Congress Subject Headings--Topics only",
      index := "/authorities/subjects",
      member := some "http://id.loc.gov/authorities/subjects/collection_LCSHAuthorizedHeadings",
      type := some "Topic" },
    { id := "Subjects--Geographic",
      name := "Library of Congress Subject Headings--Geographics only",
      index := "/authorities/subjects",
      member := some "http://id.loc.gov/authorities/subjects/collection_LCSHAuthorizedHeadings",
      type := some "Geographic" },
    { id := "Subjects--Families",
      name := "Library of Congress Subject Headings--Families only",
      index := "/authorities/subjects",
      member := some "http://id.loc.gov/authorities/subjects/collection_LCSHAuthorizedHeadings",
      type := some "FamilyName" },
    { id := "Subjects--Corporate",
      name := "Library of Congress Subject Headings--Corporate bodies only",
      index := "/authorities/subjects",
      member := some "http://id.loc.gov/authorities/subjects/collection_LCSHAuthorizedHeadings",
      type := some "CorporateName" },
    { id := "LCGFT",
      name := "Library of Congress Genre/Form Terms",
      index := "/authorities/genreForms",
      member := some "", type := some "" },
    { id := "TGM",
      name := "Thesaurus for Graphic Materials",
      index := "/vocabulary/graphicMaterials",
      member := some "", type := some "" },
    { id := "RBMSCV",
      name := "RBMS Controlled Vocabulary for Rare Materials Cataloging",
      index := "/vocabulary/rbmscv",
      member := some "", type := some "" },
    { id := "LCDGT",
      name := "Library of Congress Demographic Group Terms",
      index := "/authorities/demographicTerms",
      member := some "", type := some "" },
    { id := "MARCLang",
      name := "MARC Languages",
      index := "/vocabulary/languages",
      member := some "", type := some "" },
    { id := "ISO639-2Lang",
      name := "ISO 639-2 Languages",
      index := "/vocabulary/iso639-2",
      member := some "", type := some "" },
    { id := "Relators",
      name := "MARC relators",
      index := "/vocabulary/relators",
      member := some "", type := some "" },
    { id := "RBMS-Relators",
      name := "Rare Books and Manuscripts Relationship Designators",
      index := "/vocabulary/rbmsrel",
      member := some "", type := some "" },
    { id := "LCMPT",
      name := "Library of Congress Medium of Performance Thesaurus for Music",
      index := "/authorities/performanceMediums",
      member := some "", type := some "" } ] ++ [default_query]

/-- Python `str.strip()` (whitespace removed at both ends), as applied to the
normalized query at line 226. -/
def pyStrip (s : String) : String :=
  String.mk (((s.data.dropWhile Char.isWhitespace).reverse.dropWhile
    Char.isWhitespace).reverse)

/-- ASCII lowering of one character (Python `str.lower()` restricted to
ASCII). -/
def pyLowerChar (c : Char) : Char :=
  if 'A' ≤ c ∧ c ≤ 'Z' then Char.ofNat (c.toNat + 32) else c

/-- ASCII lowering of a string. -/
def pyLower (s : String) : String := String.mk (s.data.map pyLowerChar)

/-- Helper for Python `str.split()` with no separator: whitespace runs delimit
tokens and no empty tokens are produced.  The second argument accumulates the
current token in reverse. -/
def tokensAux : List Char → List Char → List (List Char)
  | [], cur => if cur.isEmpty then [] else [cur.reverse]
  | c :: cs, cur =>
    if c.isWhitespace then
      if cur.isEmpty then tokensAux cs [] else cur.reverse :: tokensAux cs []
    else tokensAux cs (c :: cur)

/-- Python `str.split()` with no separator. -/
def pySplit (s : String) : List String := (tokensAux s.data []).map String.mk

/-- Lexicographic comparison of character lists by code point, Python's
string ordering. -/
def charListLt : List Char → List Char → Bool
  | [], [] => false
  | [], _ :: _ => true
  | _ :: _, [] => false
  | a :: as, b :: bs => if a < b then true else if b < a then false else charListLt as bs

/-- Stable insertion used to model Python `sorted` on strings (ascending,
lexicographic). -/
def insertStr (t : String) : List String → List String
  | [] => [t]
  | x :: xs => if charListLt x.data t.data then x :: insertStr t xs else t :: x :: xs

/-- Python `sorted` on a list of strings: the unique stable ascending sort. -/
def sortStrings : List String → List String
  | [] => []
  | x :: xs => insertStr x (sortStrings xs)

/-- Python `" ".join(tokens)`. -/
def joinSpace : List String → String
  | [] => ""
  | [t] => t
  | t :: ts => t ++ " " ++ joinSpace ts

/-- Concatenation of a list of strings. -/
def joinAll : List String → String
  | [] => ""
  | t :: ts => t ++ joinAll ts

/-- Modelled from the spec: the Levenshtein edit distance between two
character lists, the metric underlying the scorer the spec describes.  The
first argument is structural fuel; `xs.length + ys.length` is always
sufficient, since every recursive call consumes one fuel unit and at least one
character. -/
def levdistFuel : Nat → List Char → List Char → Nat
  | _, [], ys => ys.length
  | _, xs, [] => xs.length
  | 0, _, _ => 0
  | fuel + 1, x :: xs, y :: ys =>
    if x = y then levdistFuel fuel xs ys
    else 1 + min (levdistFuel fuel (x :: xs) ys)
      (min (levdistFuel fuel xs (y :: ys)) (levdistFuel fuel xs ys))

/-- Levenshtein edit distance between two character lists. -/
def levdist (xs ys : List Char) : Nat := levdistFuel (xs.length + ys.length) xs ys

/-- Modelled from the spec: a normalized edit-distance ratio scaled to
[0,100] between two strings, 100 for identical strings. -/
def ratioScaled (a b : String) : Nat :=
  let m := max a.length b.length
  if m = 0 then 100 else (100 * (m - levdist a.data b.data)) / m

/-- Modelled from the spec: the preprocessing of `fuzz.token_sort_ratio`
(the external fuzzywuzzy dependency called at line 287, which is not part of
the repository sources): the string is lowercased, split into
whitespace-delimited tokens, the tokens sorted lexicographically and rejoined
with single spaces. -/
def processAndSort (s : String) : String :=
  joinSpace (sortStrings (pySplit (pyLower s)))

/-- Modelled from the spec: `fuzz.token_sort_ratio` compares the processed
token-sorted strings by a normalized edit-distance ratio scaled to [0,100];
an empty (processed) string yields a score of 0, per the spec's
`score("", anything) = 0`. -/
def tokenSortRatio (s1 s2 : String) : Nat :=
  let t1 := processAndSort s1
  let t2 := processAndSort s2
  if t1 = "" ∨ t2 = "" then 0 else ratioScaled t1 t2

/-- `fuzz.token_sort_ratio(query, name)` at line 287, where `name` may be
Python `None` (absent `aLabel`); fuzzywuzzy returns 0 when an argument is
`None`. -/
def fuzzScore (query : String) (label : Option String) : Nat :=
  match label with
  | none => 0
  | some s => tokenSortRatio query s

/-- UTF-8 bytes of one character, for `query.encode('utf8')` at line 267. -/
def utf8Bytes (c : Char) : List Nat :=
  let n := c.toNat
  if n < 128 then [n]
  else if n < 2048 then [192 + n / 64, 128 + n % 64]
  else if n < 65536 then [224 + n / 4096, 128 + (n / 64) % 64, 128 + n % 64]
  else [240 + n / 262144, 128 + (n / 4096) % 64, 128 + (n / 64) % 64, 128 + n % 64]

/-- Bytes left unencoded by `urllib.parse.quote` with its default `safe='/'`:
ASCII letters, digits, the characters `_`, `.`, `-`, `~`, and `/`. -/
def quoteSafe (b : Nat) : Bool :=
  (65 ≤ b && b ≤ 90) || (97 ≤ b && b ≤ 122) || (48 ≤ b && b ≤ 57) ||
  b == 95 || b == 46 || b == 45 || b == 126 || b == 47

/-- Uppercase hexadecimal digit. -/
def hexDigitChar (n : Nat) : Char :=
  if n < 10 then Char.ofNat (48 + n) else Char.ofNat (55 + n)

/-- Percent-encoding of one byte by `urllib.parse.quote`. -/
def quoteByte (b : Nat) : String :=
  if quoteSafe b then String.mk [Char.ofNat b]
  else String.mk ['%', hexDigitChar (b / 16), hexDigitChar (b % 16)]

/-- `urllib.parse.quote(query.encode('utf8'))` at line 267: UTF-8
percent-encoding of the query. -/
def pyQuote (s : String) : String :=
  joinAll (((s.data.map utf8Bytes).flatten).map quoteByte)

/-- The URL construction of lines 267-275: the suggest2 base URL with the
query and `count=50`, then the conditional `memberOf`/`rdftype` filter
appends in the order the code performs them. -/
def buildUrl (index member cls query : String) : String :=
  let url := "http://id.loc.gov" ++ index ++ "/suggest2?q=" ++ pyQuote query ++ "&count=50"
  let url2 :=
    if member.length > 0 then
      (if cls.length > 0 then url ++ "&memberOf=" ++ member ++ "&rdftype=" ++ cls
       else url ++ "&memberOf=" ++ member)
    else url
  if cls.length > 0 then
    (if member.length > 0 then url2 ++ "&rdftype=" ++ cls ++ "&memberOf=" ++ member
     else url2 ++ "&rdftype=" ++ cls)
  else url2

/-- The dictionary appended to `out` at lines 291-298.  The `type` value is
`query_type_meta`, the list produced by the lookup comprehension at
line 227. -/
structure Resource where
  id : Option String
  name : Option String
  score : Nat
  «match» : Bool
  type : List VocabEntry
deriving DecidableEq

/-- Body of the loop over `hits` (lines 283-298).  The score is computed by
the fuzzy scorer (0 when the label is absent, i.e. `None`), the match flag is
set iff the score exceeds 95, and the debug logging at line 290 concatenates
`name` and `uri` into a `str`, which raises `TypeError` when either is
Python `None`. -/
def processHit (query : String) (query_type_meta : List VocabEntry) (n : Hit) :
    Except PyError Resource :=
  let name := n.aLabel
  let uri := n.uri
  let score := fuzzScore query name
  let isMatch := decide (score > 95)
  match name, uri with
  | some nm, some u =>
    Except.ok { id := some u, name := some nm, score := score,
                «match» := isMatch, type := query_type_meta }
  | _, _ => Except.error PyError.typeError

/-- The loop over `hits` (lines 283-298), appending one resource per hit in
order; the first raised exception propagates. -/
def processHits (query : String) (query_type_meta : List VocabEntry) :
    List Hit → Except PyError (List Resource)
  | [] => Except.ok []
  | n :: rest =>
    match processHit query query_type_meta n with
    | Except.error e => Except.error e
    | Except.ok r =>
      match processHits query query_type_meta rest with
      | Except.error e => Except.error e
      | Except.ok rs => Except.ok (r :: rs)

/-- Stable insertion for the descending sort by score.  Python `sorted` with
`key=itemgetter('score'), reverse=True` (line 301) is specified to be a
stable sort, which determines it uniquely as a function; insertion before the
first element of not-larger score realizes it. -/
def insertDesc (r : Resource) : List Resource → List Resource
  | [] => [r]
  | x :: xs => if x.score ≤ r.score then r :: x :: xs else x :: insertDesc r xs

/-- `sorted(out, key=itemgetter('score'), reverse=True)` at line 301: the
stable descending sort by score. -/
def pySortDesc : List Resource → List Resource
  | [] => []
  | x :: xs => insertDesc x (pySortDesc xs)

/-- Lines 301-303: sort the scored candidates by score descending (stable)
and return at most the first 20 (`sorted_out[:20]`). -/
def rank (out : List Resource) : List Resource := (pySortDesc out).take 20

/-- Lines 277-279 inside the `try` block: `requests.get(url)`,
`resp.json()` and `results['hits']`, each with its failure mode. -/
def fetchHits (upstream : String → UpstreamOutcome) (url : String) :
    Except PyError (List Hit) :=
  match upstream url with
  | UpstreamOutcome.netError => Except.error PyError.requestError
  | UpstreamOutcome.notJson => Except.error PyError.jsonDecodeError
  | UpstreamOutcome.json none => Except.error (PyError.keyError "hits")
  | UpstreamOutcome.json (some hits) => Except.ok hits

/-- The part of `search` after the type resolution succeeded (lines 228-303):
extract `index`, `member` and `type` from the first matching entry (KeyError
when the key is absent, as on `default_query`), build the URL, perform the
upstream call whose failures are caught only if they are
`getopt.GetoptError` (line 280) — in which case the empty `out` is returned —
then score every hit and rank. -/
def searchResolved (upstream : String → UpstreamOutcome) (query : String)
    (query_type_meta : List VocabEntry) (m0 : VocabEntry) :
    Except PyError (List Resource) :=
  match m0.member, m0.type with
  | none, _ => Except.error (PyError.keyError "member")
  | some _, none => Except.error (PyError.keyError "type")
  | some query_member, some query_class =>
    match fetchHits upstream (buildUrl m0.index query_member query_class query) with
    | Except.error e =>
      if e == PyError.getoptError then Except.ok [] else Except.error e
    | Except.ok hits =>
      match processHits query query_type_meta hits with
      | Except.error e => Except.error e
      | Except.ok out => Except.ok (rank out)

/-- The `search` function (lines 224-303).  `normalize` stands for
`text.normalize` of the repository's `text` module, which is not among the
sources; the spec treats it as an injected pure function, so it is a
parameter here.  The query is normalized and stripped (line 226), the type
is looked up by the comprehension at line 227, and line 228 subscripts the
resulting list: on an unrecognized type the list is empty and `IndexError`
is raised before the fallback at lines 231-232 can run. -/
def search (normalize : String → String) (upstream : String → UpstreamOutcome)
    (raw_query query_type : String) : Except PyError (List Resource) :=
  let query := pyStrip (normalize raw_query)
  match refine_to_lc.filter (fun i => i.id == query_type) with
  | [] => Except.error PyError.indexError
  | m0 :: rest => searchResolved upstream query (m0 :: rest) m0

/-- One value of the parsed `queries` dictionary (lines 313-319):
`query.get('type')` may be absent (`None`); `query['query']` is assumed
present. -/
structure BatchQuery where
  query : String
  type : Option String
deriving DecidableEq

/-- The two response shapes of the route handler `reconcile`
(lines 306-324): the static service metadata object (lines 200-208) or the
keyed batch results. -/
inductive PyResponse where
  | metadata
  | results (entries : List (String × List Resource))
deriving DecidableEq

/-- The loop of lines 315-320 over the batch entries, accumulating the keyed
results in iteration order: an entry whose `type` is absent makes the
handler return the metadata object at once (lines 317-318), discarding the
results accumulated so far; otherwise `search` runs and any exception it
raises propagates. -/
def reconcileGo (normalize : String → String) (upstream : String → UpstreamOutcome) :
    List (String × BatchQuery) → List (String × List Resource) →
    Except PyError PyResponse
  | [], acc => Except.ok (PyResponse.results acc)
  | (key, q) :: rest, acc =>
    match q.type with
    | none => Except.ok PyResponse.metadata
    | some t =>
      match search normalize upstream q.query t with
      | Except.error e => Except.error e
      | Except.ok data => reconcileGo normalize upstream rest (acc ++ [(key, data)])

/-- The batch branch of the route handler (lines 311-321). -/
def reconcileBatch (normalize : String → String)
    (upstream : String → UpstreamOutcome) (batch : List (String × BatchQuery)) :
    Except PyError PyResponse :=
  reconcileGo normalize upstream batch []

/-- The route handler `reconcile` (lines 306-324): with no `queries` field the
static metadata object is returned; otherwise the batch is processed. -/
def reconcile (normalize : String → String) (upstream : String → UpstreamOutcome)
    (queries : Option (List (String × BatchQuery))) : Except PyError PyResponse :=
  match queries with
  | none => Except.ok PyResponse.metadata
  | some batch => reconcileBatch normalize upstream batch

/-! ### Helper lemmas about the scorer -/

theorem str_length_zero_eq (s : String) (h : s.length = 0) : s = "" := by
  cases s with
  | mk data =>
    cases data with
    | nil => rfl
    | cons c cs => simp [String.length] at h

theorem levdistFuel_self (xs : List Char) :
    ∀ f, xs.length ≤ f → levdistFuel f xs xs = 0 := by
  induction xs with
  | nil => intro f _; simp [levdistFuel]
  | cons x xs ih =>
    intro f hf
    cases f with
    | zero => simp at hf
    | succ g =>
      have hg : xs.length ≤ g := by simp at hf; omega
      simp [levdistFuel, ih g hg]

theorem levdist_self (xs : List Char) : levdist xs xs = 0 :=
  levdistFuel_self xs (xs.length + xs.length) (Nat.le_add_right _ _)

theorem ratioScaled_self (a : String) (h : a ≠ "") : ratioScaled a a = 100 := by
  have hlen : a.length ≠ 0 := fun h0 => h (str_length_zero_eq a h0)
  simp only [ratioScaled, max_self, levdist_self, Nat.sub_zero]
  rw [if_neg hlen]
  exact Nat.mul_div_cancel _ (Nat.pos_of_ne_zero hlen)

theorem tokenSortRatio_self (x : String) (h : processAndSort x ≠ "") :
    tokenSortRatio x x = 100 := by
  simp only [tokenSortRatio]
  rw [if_neg (by simp [h])]
  exact ratioScaled_self _ h

/-! ### Claim theorems: C1, C2, C5, C7, C3 -/

/-- Claim C1 (code bug): contrary to the claim, the type resolution inside
`search` never returns the default entry for an unrecognized or empty
`typeId`: the subscript `query_type_meta[0]['index']` at line 228 raises
`IndexError` before the fallback at line 231 can run; and for the recognized
`typeId` "LoC" the lookup succeeds but `['member']` raises `KeyError`, since
`default_query` has no such key. -/
theorem c1_type_resolution_raises :
    search (fun s => s) (fun _ => UpstreamOutcome.json (some [])) "water" "Bogus"
        = Except.error PyError.indexError ∧
      search (fun s => s) (fun _ => UpstreamOutcome.json (some [])) "water" ""
        = Except.error PyError.indexError ∧
      search (fun s => s) (fun _ => UpstreamOutcome.json (some [])) "water" "LoC"
        = Except.error (PyError.keyError "member") :=
  ⟨rfl, rfl, rfl⟩

/-- Claim C2 (code bug): contrary to the claim, an upstream failure does not
yield an empty result list: the `except` clause at line 280 catches only
`getopt.GetoptError`, so a missing `hits` member (KeyError), a network error,
or a non-JSON body all propagate out of `search` instead of returning `[]`. -/
theorem c2_upstream_failure_raises :
    search (fun s => s) (fun _ => UpstreamOutcome.json none) "water" "LCGFT"
        = Except.error (PyError.keyError "hits") ∧
      search (fun s => s) (fun _ => UpstreamOutcome.netError) "water" "LCGFT"
        = Except.error PyError.requestError ∧
      search (fun s => s) (fun _ => UpstreamOutcome.notJson) "water" "LCGFT"
        = Except.error PyError.jsonDecodeError :=
  ⟨rfl, rfl, rfl⟩

/-- Claim C5 (code bug): contrary to the claim, a hit whose `aLabel` is absent
is not skipped, and a hit whose `uri` is absent is not scored: the debug
logging at line 290 concatenates `name` and `uri` into a `str` and raises
`TypeError` when either is `None`.  The empty-string-label part of the claim
does hold: such a hit is kept with score 0 and match false. -/
theorem c5_missing_fields :
    search (fun s => s)
        (fun _ => UpstreamOutcome.json (some [{ aLabel := none, uri := some "http://u" }]))
        "water" "LCGFT" = Except.error PyError.typeError ∧
      search (fun s => s)
        (fun _ => UpstreamOutcome.json (some [{ aLabel := some "water label", uri := none }]))
        "water" "LCGFT" = Except.error PyError.typeError ∧
      search (fun s => s)
        (fun _ => UpstreamOutcome.json (some [{ aLabel := some "", uri := some "http://u" }]))
        "water" "LCGFT" =
        Except.ok [{ id := some "http://u", name := some "", score := 0, «match» := false,
                     type := [{ id := "LCGFT", name := "Library of Congress Genre/Form Terms",
                                index := "/authorities/genreForms",
                                member := some "", type := some "" }] }] :=
  ⟨rfl, rfl, rfl⟩

/-- Claim C7 counterexample: scoring the empty string against an identical
empty candidate label yields 0, not 100, because the scorer returns 0 when a
processed string is empty. -/
theorem c7_identical_empty_counterexample :
    fuzzScore "" (some "") = 0 ∧ ¬ fuzzScore "" (some "") = 100 :=
  ⟨rfl, by decide⟩

/-- Claim C7 (amended): for every string x whose processed token-sorted form
(lowercased, whitespace-tokenized, sorted, rejoined) is non-empty, scoring x
against a candidate label equal to x yields 100, which exceeds the match
threshold 95; when the processed form is empty (for example x itself empty)
the score is 0 instead. -/
theorem c7_identical_score_amended (x : String) (h : processAndSort x ≠ "") :
    fuzzScore x (some x) = 100 ∧ decide (fuzzScore x (some x) > 95) = true := by
  have h100 : fuzzScore x (some x) = 100 := tokenSortRatio_self x h
  exact ⟨h100, by rw [h100]; rfl⟩

/-- Witness for the amended C7 at the concrete input "Mark Twain". -/
theorem c7_identical_score_amended_witness :
    processAndSort "Mark Twain" ≠ "" ∧
      (fuzzScore "Mark Twain" (some "Mark Twain") = 100 ∧
        decide (fuzzScore "Mark Twain" (some "Mark Twain") > 95) = true) :=
  ⟨by decide, c7_identical_score_amended "Mark Twain" (by decide)⟩

/-- Claim C3: the URL built by `search` is the suggest2 base with the UTF-8
percent-encoded query, always contains the count parameter, and carries the
conditional `memberOf`/`rdftype` appends exactly as lines 267-275 perform
them: when both filters are non-empty each is appended twice, in the order
memberOf, rdftype, rdftype, memberOf. -/
theorem c3_build_url_shape (index member cls query : String) :
    (∃ rest, buildUrl index member cls query =
        "http://id.loc.gov" ++ index ++ "/suggest2?q=" ++ pyQuote query
          ++ "&count=50" ++ rest) ∧
    (member = "" → cls = "" → buildUrl index member cls query =
        "http://id.loc.gov" ++ index ++ "/suggest2?q=" ++ pyQuote query ++ "&count=50") ∧
    (member ≠ "" → cls = "" → buildUrl index member cls query =
        "http://id.loc.gov" ++ index ++ "/suggest2?q=" ++ pyQuote query ++ "&count=50"
          ++ "&memberOf=" ++ member) ∧
    (member = "" → cls ≠ "" → buildUrl index member cls query =
        "http://id.loc.gov" ++ index ++ "/suggest2?q=" ++ pyQuote query ++ "&count=50"
          ++ "&rdftype=" ++ cls) ∧
    (member ≠ "" → cls ≠ "" → buildUrl index member cls query =
        "http://id.loc.gov" ++ index ++ "/suggest2?q=" ++ pyQuote query ++ "&count=50"
          ++ "&memberOf=" ++ member ++ "&rdftype=" ++ cls
          ++ "&rdftype=" ++ cls ++ "&memberOf=" ++ member) := by
  have hpos : ∀ s : String, s ≠ "" → s.length > 0 := fun s hs =>
    Nat.pos_of_ne_zero (fun h0 => hs (str_length_zero_eq s h0))
  have hz : ¬ ("" : String).length > 0 := by decide
  have h00 : member = "" → cls = "" → buildUrl index member cls query =
      "http://id.loc.gov" ++ index ++ "/suggest2?q=" ++ pyQuote query ++ "&count=50" := by
    intro hm hc; subst hm; subst hc
    simp only [buildUrl]
    rw [if_neg hz, if_neg hz]
  have h10 : member ≠ "" → cls = "" → buildUrl index member cls query =
      "http://id.loc.gov" ++ index ++ "/suggest2?q=" ++ pyQuote query ++ "&count=50"
        ++ "&memberOf=" ++ member := by
    intro hm hc; subst hc
    simp only [buildUrl]
    rw [if_neg hz, if_pos (hpos member hm), if_neg hz]
  have h01 : member = "" → cls ≠ "" → buildUrl index member cls query =
      "http://id.loc.gov" ++ index ++ "/suggest2?q=" ++ pyQuote query ++ "&count=50"
        ++ "&rdftype=" ++ cls := by
    intro hm hc; subst hm
    simp only [buildUrl]
    rw [if_neg hz, if_pos (hpos cls hc), if_neg hz]
  have h11 : member ≠ "" → cls ≠ "" → buildUrl index member cls query =
      "http://id.loc.gov" ++ index ++ "/suggest2?q=" ++ pyQuote query ++ "&count=50"
        ++ "&memberOf=" ++ member ++ "&rdftype=" ++ cls
        ++ "&rdftype=" ++ cls ++ "&memberOf=" ++ member := by
    intro hm hc
    simp only [buildUrl]
    rw [if_pos (hpos member hm), if_pos (hpos cls hc), if_pos (hpos cls hc),
      if_pos (hpos member hm)]
  refine ⟨?_, h00, h10, h01, h11⟩
  by_cases hm : member = "" <;> by_cases hc : cls = ""
  · exact ⟨"", by rw [h00 hm hc]; rw [String.append_empty]⟩
  · exact ⟨"&rdftype=" ++ cls, by rw [h01 hm hc]; simp only [String.append_assoc]⟩
  · exact ⟨"&memberOf=" ++ member, by rw [h10 hm hc]; simp only [String.append_assoc]⟩
  · exact ⟨"&memberOf=" ++ member ++ "&rdftype=" ++ cls ++ "&rdftype=" ++ cls
        ++ "&memberOf=" ++ member,
      by rw [h11 hm hc]; simp only [String.append_assoc]⟩

/-- Witness for C3 at the Names--Personal registry values, where both filters
are non-empty. -/
theorem c3_build_url_shape_witness :
    (("http://id.loc.gov/authorities/names/collection_NamesAuthorizedHeadings" : String) ≠ ""
        ∧ ("PersonalName" : String) ≠ "") ∧
      buildUrl "/authorities/names"
          "http://id.loc.gov/authorities/names/collection_NamesAuthorizedHeadings"
          "PersonalName" "mark twain" =
        "http://id.loc.gov" ++ "/authorities/names" ++ "/suggest2?q="
          ++ pyQuote "mark twain" ++ "&count=50"
          ++ "&memberOf=" ++ "http://id.loc.gov/authorities/names/collection_NamesAuthorizedHeadings"
          ++ "&rdftype=" ++ "PersonalName"
          ++ "&rdftype=" ++ "PersonalName"
          ++ "&memberOf=" ++ "http://id.loc.gov/authorities/names/collection_NamesAuthorizedHeadings" :=
  ⟨⟨by decide, by decide⟩,
    (c3_build_url_shape "/authorities/names"
        "http://id.loc.gov/authorities/names/collection_NamesAuthorizedHeadings"
        "PersonalName" "mark twain").2.2.2.2 (by decide) (by decide)⟩

/-! ### Helper lemmas about the stable descending sort -/

theorem insertDesc_perm (r : Resource) (m : List Resource) :
    List.Perm (insertDesc r m) (r :: m) := by
  induction m with
  | nil => exact List.Perm.refl _
  | cons x xs ih =>
    by_cases hge : x.score ≤ r.score
    · simp only [insertDesc, if_pos hge]
      exact List.Perm.refl _
    · simp only [insertDesc, if_neg hge]
      exact (ih.cons x).trans (List.Perm.swap r x xs)

theorem pySortDesc_perm (l : List Resource) : List.Perm (pySortDesc l) l := by
  induction l with
  | nil => exact List.Perm.refl _
  | cons x xs ih =>
    simp only [pySortDesc]
    exact (insertDesc_perm x (pySortDesc xs)).trans (ih.cons x)

theorem insertDesc_pairwise (r : Resource) (m : List Resource)
    (h : m.Pairwise (fun a b => b.score ≤ a.score)) :
    (insertDesc r m).Pairwise (fun a b => b.score ≤ a.score) := by
  induction m with
  | nil => simp [insertDesc]
  | cons x xs ih =>
    rcases List.pairwise_cons.mp h with ⟨hx, hxs⟩
    by_cases hge : x.score ≤ r.score
    · simp only [insertDesc, if_pos hge]
      refine List.pairwise_cons.mpr ⟨?_, h⟩
      intro b hb
      rcases List.mem_cons.mp hb with rfl | hb2
      · exact hge
      · exact le_trans (hx b hb2) hge
    · simp only [insertDesc, if_neg hge]
      refine List.pairwise_cons.mpr ⟨?_, ih hxs⟩
      intro b hb
      rcases List.mem_cons.mp ((insertDesc_perm r xs).mem_iff.mp hb) with rfl | hb2
      · exact le_of_lt (not_le.mp hge)
      · exact hx b hb2

theorem pySortDesc_pairwise (l : List Resource) :
    (pySortDesc l).Pairwise (fun a b => b.score ≤ a.score) := by
  induction l with
  | nil => simp [pySortDesc]
  | cons x xs ih =>
    simp only [pySortDesc]
    exact insertDesc_pairwise x _ ih

theorem insertDesc_filter (s : Nat) (r : Resource) (m : List Resource) :
    (insertDesc r m).filter (fun c => c.score == s) =
      if r.score == s then r :: m.filter (fun c => c.score == s)
      else m.filter (fun c => c.score == s) := by
  induction m with
  | nil =>
    by_cases hr : (r.score == s) = true <;>
      simp [insertDesc, List.filter_cons, hr]
  | cons x xs ih =>
    by_cases hge : x.score ≤ r.score
    · simp only [insertDesc, if_pos hge, List.filter_cons]
    · by_cases hx : (x.score == s) = true
      · have hxe : x.score = s := by simpa using hx
        have hr : ¬ ((r.score == s) = true) := by
          have hlt : r.score < x.score := not_le.mp hge
          simp only [beq_iff_eq]
          omega
        simp [insertDesc, if_neg hge, List.filter_cons, hx, hr, ih]
      · simp [insertDesc, if_neg hge, List.filter_cons, hx, ih]

theorem pySortDesc_filter (s : Nat) (l : List Resource) :
    (pySortDesc l).filter (fun c => c.score == s) =
      l.filter (fun c => c.score == s) := by
  induction l with
  | nil => rfl
  | cons x xs ih =>
    simp only [pySortDesc, insertDesc_filter, ih, List.filter_cons]

/-- Claim C4: the ranking step returns at most 20 candidates, sorted
non-increasing by score; it is stable in that, for every score value, the
candidates carrying that score in the output form a prefix of those carrying
it in the input, in the same order; and the empty input yields the empty
output. -/
theorem c4_rank_spec (l : List Resource) :
    (rank l).length ≤ 20 ∧
      (rank l).Pairwise (fun a b => b.score ≤ a.score) ∧
      (∀ s : Nat, ∃ t, (rank l).filter (fun c => c.score == s) ++ t
          = l.filter (fun c => c.score == s)) ∧
      rank ([] : List Resource) = [] := by
  refine ⟨?_, ?_, ?_, rfl⟩
  · simp [rank, List.length_take]
  · exact (pySortDesc_pairwise l).sublist (List.take_sublist 20 (pySortDesc l))
  · intro s
    refine ⟨((pySortDesc l).drop 20).filter (fun c => c.score == s), ?_⟩
    rw [rank, ← List.filter_append, List.take_append_drop, pySortDesc_filter]

/-! ### Helper lemmas about the scoring loop and search -/

theorem processHit_ok (query : String) (meta : List VocabEntry) (n : Hit)
    (r : Resource) (h : processHit query meta n = Except.ok r) :
    r.type = meta ∧ r.«match» = decide (r.score > 95) := by
  rcases n with ⟨_ | nm, _ | u⟩ <;> simp only [processHit] at h
  · exact Except.noConfusion h
  · exact Except.noConfusion h
  · exact Except.noConfusion h
  · rw [Except.ok.injEq] at h
    subst h
    exact ⟨rfl, rfl⟩

theorem processHits_ok (query : String) (meta : List VocabEntry) :
    ∀ (hits : List Hit) (out : List Resource),
      processHits query meta hits = Except.ok out →
      ∀ r ∈ out, r.type = meta ∧ r.«match» = decide (r.score > 95) := by
  intro hits
  induction hits with
  | nil =>
    intro out h r hr
    simp only [processHits, Except.ok.injEq] at h
    subst h
    simp at hr
  | cons n rest ih =>
    intro out h r hr
    rcases hh : processHit query meta n with e | r0
    · simp [processHits, hh] at h
    · rcases hrest : processHits query meta rest with e2 | rs
      · simp [processHits, hh, hrest] at h
      · simp only [processHits, hh, hrest, Except.ok.injEq] at h
        subst h
        rcases List.mem_cons.mp hr with rfl | hr2
        · exact processHit_ok query meta n r hh
        · exact ih rs hrest r hr2

theorem searchResolved_ok (upstream : String → UpstreamOutcome) (query : String)
    (meta : List VocabEntry) (m0 : VocabEntry) (out : List Resource)
    (h : searchResolved upstream query meta m0 = Except.ok out) :
    ∀ r ∈ out, r.type = meta ∧ r.«match» = decide (r.score > 95) := by
  intro r hr
  rcases hm : m0.member with _ | qm
  · simp [searchResolved, hm] at h
  · rcases hc : m0.type with _ | qc
    · simp [searchResolved, hm, hc] at h
    · rcases hf : fetchHits upstream (buildUrl m0.index qm qc query) with e | hits
      · by_cases hg : e = PyError.getoptError
        · subst hg
          simp only [searchResolved, hm, hc, hf] at h
          simp at h
          subst h
          simp at hr
        · simp only [searchResolved, hm, hc, hf] at h
          rw [if_neg (by simp [hg])] at h
          exact Except.noConfusion h
      · rcases hp : processHits query meta hits with e2 | out2
        · simp [searchResolved, hm, hc, hf, hp] at h
        · simp only [searchResolved, hm, hc, hf, hp, Except.ok.injEq] at h
          subst h
          simp only [rank] at hr
          have hr2 : r ∈ out2 :=
            (pySortDesc_perm out2).mem_iff.mp ((List.take_sublist 20 _).subset hr)
          exact processHits_ok query meta hits out2 hp r hr2

theorem search_ok (normalize : String → String) (upstream : String → UpstreamOutcome)
    (raw t : String) (out : List Resource)
    (h : search normalize upstream raw t = Except.ok out) :
    ∀ r ∈ out, r.type = refine_to_lc.filter (fun i => i.id == t) ∧
      r.«match» = decide (r.score > 95) := by
  intro r hr
  rcases hf : refine_to_lc.filter (fun i => i.id == t) with _ | ⟨m0, rest⟩
  · simp [search, hf] at h
  · simp only [search, hf] at h
    rw [hf]
    exact searchResolved_ok upstream (pyStrip (normalize raw)) (m0 :: rest) m0 out h r hr

theorem refine_filter_eq : ∀ e ∈ refine_to_lc,
    refine_to_lc.filter (fun i => i.id == e.id) = [e] := by decide

/-! ### Claim theorems C6 and C9 -/

/-- Claim C6: every candidate produced by a (successful) `search` call has
its match flag true if and only if its score is strictly greater than 95. -/
theorem c6_match_iff_score_gt95 (normalize : String → String)
    (upstream : String → UpstreamOutcome) (raw t : String) (out : List Resource)
    (r : Resource) (h : search normalize upstream raw t = Except.ok out)
    (hr : r ∈ out) : r.«match» = true ↔ r.score > 95 := by
  rw [(search_ok normalize upstream raw t out h r hr).2]
  simp

/-- Witness for C6 at a concrete successful search (one exact-match hit). -/
theorem c6_match_iff_score_gt95_witness :
    ({ id := some "http://id.loc.gov/x", name := some "mark twain", score := 100,
       «match» := true,
       type := [{ id := "LCGFT", name := "Library of Congress Genre/Form Terms",
                  index := "/authorities/genreForms", member := some "",
                  type := some "" }] } : Resource).«match» = true ↔
      ({ id := some "http://id.loc.gov/x", name := some "mark twain", score := 100,
         «match» := true,
         type := [{ id := "LCGFT", name := "Library of Congress Genre/Form Terms",
                    index := "/authorities/genreForms", member := some "",
                    type := some "" }] } : Resource).score > 95 :=
  c6_match_iff_score_gt95 (fun s => s)
    (fun _ => UpstreamOutcome.json
      (some [{ aLabel := some "mark twain", uri := some "http://id.loc.gov/x" }]))
    "Mark Twain" "LCGFT"
    [{ id := some "http://id.loc.gov/x", name := some "mark twain", score := 100,
       «match» := true,
       type := [{ id := "LCGFT", name := "Library of Congress Genre/Form Terms",
                  index := "/authorities/genreForms", member := some "",
                  type := some "" }] }]
    { id := some "http://id.loc.gov/x", name := some "mark twain", score := 100,
      «match» := true,
      type := [{ id := "LCGFT", name := "Library of Congress Genre/Form Terms",
                 index := "/authorities/genreForms", member := some "",
                 type := some "" }] }
    rfl (List.mem_singleton.mpr rfl)

/-- Claim C9: every candidate of a successful `search` for a recognized
type carries, in its echoed type field, exactly the list produced by the
registry lookup comprehension, which is the one-element list holding the
matching registry entry. -/
theorem c9_type_field_lookup_list (normalize : String → String)
    (upstream : String → UpstreamOutcome) (raw : String) (e : VocabEntry)
    (out : List Resource) (r : Resource) (he : e ∈ refine_to_lc)
    (h : search normalize upstream raw e.id = Except.ok out) (hr : r ∈ out) :
    r.type = refine_to_lc.filter (fun i => i.id == e.id) ∧ r.type = [e] := by
  have h1 := (search_ok normalize upstream raw e.id out h r hr).1
  exact ⟨h1, h1.trans (refine_filter_eq e he)⟩

/-- Witness for C9 at the registered LCGFT entry and a concrete successful
search. -/
theorem c9_type_field_lookup_list_witness :
    ({ id := "LCGFT", name := "Library of Congress Genre/Form Terms",
       index := "/authorities/genreForms", member := some "",
       type := some "" } : VocabEntry) ∈ refine_to_lc ∧
      (({ id := some "u", name := some "x", score := 0, «match» := false,
          type := [{ id := "LCGFT", name := "Library of Congress Genre/Form Terms",
                     index := "/authorities/genreForms", member := some "",
                     type := some "" }] } : Resource).type =
          refine_to_lc.filter (fun i => i.id ==
            ({ id := "LCGFT", name := "Library of Congress Genre/Form Terms",
               index := "/authorities/genreForms", member := some "",
               type := some "" } : VocabEntry).id) ∧
        ({ id := some "u", name := some "x", score := 0, «match» := false,
           type := [{ id := "LCGFT", name := "Library of Congress Genre/Form Terms",
                      index := "/authorities/genreForms", member := some "",
                      type := some "" }] } : Resource).type =
          [{ id := "LCGFT", name := "Library of Congress Genre/Form Terms",
             index := "/authorities/genreForms", member := some "",
             type := some "" }]) :=
  ⟨by decide,
    c9_type_field_lookup_list (fun s => s)
      (fun _ => UpstreamOutcome.json (some [{ aLabel := some "x", uri := some "u" }]))
      "water"
      { id := "LCGFT", name := "Library of Congress Genre/Form Terms",
        index := "/authorities/genreForms", member := some "", type := some "" }
      [{ id := some "u", name := some "x", score := 0, «match» := false,
         type := [{ id := "LCGFT", name := "Library of Congress Genre/Form Terms",
                    index := "/authorities/genreForms", member := some "",
                    type := some "" }] }]
      { id := some "u", name := some "x", score := 0, «match» := false,
        type := [{ id := "LCGFT", name := "Library of Congress Genre/Form Terms",
                   index := "/authorities/genreForms", member := some "",
                   type := some "" }] }
      (by decide) rfl (List.mem_singleton.mpr rfl)⟩

/-! ### Helper lemma about the batch loop -/

theorem reconcileGo_missing_type (normalize : String → String)
    (upstream : String → UpstreamOutcome) :
    ∀ (batch : List (String × BatchQuery)) (acc : List (String × List Resource))
      (resp : PyResponse),
      (∃ e ∈ batch, (Prod.snd e).type = none) →
      reconcileGo normalize upstream batch acc = Except.ok resp →
      resp = PyResponse.metadata := by
  intro batch
  induction batch with
  | nil =>
    intro acc resp hex h
    rcases hex with ⟨e, he, _⟩
    simp at he
  | cons kq rest ih =>
    intro acc resp hex h
    rcases kq with ⟨key, q⟩
    rcases ht : q.type with _ | t
    · simp only [reconcileGo, ht] at h
      rw [Except.ok.injEq] at h
      exact h.symm
    · rcases hs : search normalize upstream q.query t with e | data
      · simp [reconcileGo, ht, hs] at h
      · simp only [reconcileGo, ht, hs] at h
        refine ih (acc ++ [(key, data)]) resp ?_ h
        rcases hex with ⟨e0, he0, hnone⟩
        rcases List.mem_cons.mp he0 with rfl | hmem
        · simp [ht] at hnone
        · exact ⟨e0, hmem, hnone⟩

/-! ### Claim theorems C8 and C10 -/

/-- Claim C8 counterexample: in a batch whose second entry lacks a type, the
crash provoked by the first entry (unrecognized type, `IndexError`) pre-empts
the short-circuit: the handler raises instead of responding with the
metadata object, so the response is not the metadata object even though an
entry without a type is present. -/
theorem c8_missing_type_counterexample :
    (∃ e ∈ [(("a" : String), ({ query := "x", type := some "Bogus" } : BatchQuery)),
            (("b" : String), ({ query := "y", type := none } : BatchQuery))],
        (Prod.snd e).type = none) ∧
      reconcileBatch (fun s => s) (fun _ => UpstreamOutcome.json (some []))
          [("a", { query := "x", type := some "Bogus" }),
           ("b", { query := "y", type := none })] =
        Except.error PyError.indexError ∧
      ¬ reconcileBatch (fun s => s) (fun _ => UpstreamOutcome.json (some []))
          [("a", { query := "x", type := some "Bogus" }),
           ("b", { query := "y", type := none })] =
        Except.ok PyResponse.metadata :=
  ⟨by decide, rfl, fun h => Except.noConfusion h⟩

/-- Claim C8 (amended): if some entry of the batch lacks a type key, then
whenever the handler returns normally its response is the metadata object —
it is never a (partial) batch-results object; results computed for earlier
entries are discarded.  (When an earlier entry makes `search` raise, the
handler propagates that exception instead of returning.) -/
theorem c8_missing_type_amended (normalize : String → String)
    (upstream : String → UpstreamOutcome) (batch : List (String × BatchQuery))
    (hex : ∃ e ∈ batch, (Prod.snd e).type = none) :
    (∀ resp, reconcileBatch normalize upstream batch = Except.ok resp →
        resp = PyResponse.metadata) ∧
      ∀ m, ¬ reconcileBatch normalize upstream batch
          = Except.ok (PyResponse.results m) := by
  have h1 : ∀ resp, reconcileBatch normalize upstream batch = Except.ok resp →
      resp = PyResponse.metadata := fun resp h =>
    reconcileGo_missing_type normalize upstream batch [] resp hex h
  exact ⟨h1, fun m hm => PyResponse.noConfusion (h1 (PyResponse.results m) hm)⟩

/-- Witness for the amended C8: a one-entry batch whose entry lacks a type
yields the metadata response. -/
theorem c8_missing_type_amended_witness :
    reconcileBatch (fun s => s) (fun _ => UpstreamOutcome.json (some []))
        [("b", { query := "y", type := none })] = Except.ok PyResponse.metadata ∧
      (∀ resp, reconcileBatch (fun s => s) (fun _ => UpstreamOutcome.json (some []))
          [("b", { query := "y", type := none })] = Except.ok resp →
        resp = PyResponse.metadata) :=
  ⟨rfl,
    (c8_missing_type_amended (fun s => s) (fun _ => UpstreamOutcome.json (some []))
      [("b", { query := "y", type := none })]
      ⟨("b", { query := "y", type := none }), by decide⟩).1⟩

/-- Claim C10: the string the scorer compares against each candidate label is
the normalized and whitespace-stripped query — the same string that is
percent-encoded into the upstream URL — so two raw queries that normalize and
strip to the same string produce the same upstream URL and identical search
results. -/
theorem c10_normalized_query_determines (normalize : String → String)
    (upstream : String → UpstreamOutcome) (raw1 raw2 t : String)
    (h : pyStrip (normalize raw1) = pyStrip (normalize raw2)) :
    search normalize upstream raw1 t = search normalize upstream raw2 t ∧
      ∀ index member cls, buildUrl index member cls (pyStrip (normalize raw1)) =
        buildUrl index member cls (pyStrip (normalize raw2)) := by
  constructor
  · simp only [search]
    rw [h]
  · intro index member cls
    rw [h]

/-- Witness for C10: two raw queries differing only in surrounding whitespace
produce the same search outcome. -/
theorem c10_normalized_query_determines_witness :
    pyStrip ((fun s : String => s) "  mark twain  ")
        = pyStrip ((fun s : String => s) "mark twain") ∧
      search (fun s => s) (fun _ => UpstreamOutcome.json (some []))
          "  mark twain  " "LCGFT" =
        search (fun s => s) (fun _ => UpstreamOutcome.json (some []))
          "mark twain" "LCGFT" :=
  ⟨rfl,
    (c10_normalized_query_determines (fun s => s)
      (fun _ => UpstreamOutcome.json (some [])) "  mark twain  " "mark twain"
      "LCGFT" rfl).1⟩

end Reconcile
